import Mathlib

/-!
Verification of the Zenflow conversational-support engine
(`adk_orchestrator.py` and the agents under `agents/`).

The Python code is shallowly embedded: every deterministic rule is a Lean
function translated from the source; external collaborators (the Gemini
extraction/generation service and the Google-Calendar HTTP endpoint) are
modelled as an environment of uninterpreted functions recording the observed
outcome of each call, exactly as the spec's §6 contract describes them.
Machine floats in the source only ever hold small decimal values (hours,
rates); they are modelled as rationals `ℚ`.
-/

namespace Zenflow

/-! ### Python string primitives -/

/-- Model of Python's `str.lower` restricted to the alphabet occurring in this
repository: ASCII letters plus the accented capitals used in French text. -/
def lowerChar (c : Char) : Char :=
  if 'A' ≤ c ∧ c ≤ 'Z' then Char.ofNat (c.toNat + 32)
  else if c = 'À' then 'à' else if c = 'Â' then 'â'
  else if c = 'Ç' then 'ç' else if c = 'É' then 'é'
  else if c = 'È' then 'è' else if c = 'Ê' then 'ê'
  else if c = 'Ë' then 'ë' else if c = 'Î' then 'î'
  else if c = 'Ï' then 'ï' else if c = 'Ô' then 'ô'
  else if c = 'Ù' then 'ù' else if c = 'Û' then 'û'
  else if c = 'Ü' then 'ü' else c

/-- Source `text.lower()`. -/
def pyLower (s : String) : String := String.mk (s.data.map lowerChar)

/-- Substring test on character lists (Python's `needle in hay`). -/
def containsSub : List Char → List Char → Bool
  | hay, needle =>
    match hay with
    | [] => needle.isEmpty
    | _ :: t => needle.isPrefixOf hay || containsSub t needle

/-- Python's `needle in hay` for strings. -/
def strContains (hay needle : String) : Bool := containsSub hay.data needle.data

/-- Value of a decimal digit run (the run is known to be nonempty digits). -/
def digitsVal (ds : List Char) : ℕ := ds.foldl (fun a c => 10 * a + (c.toNat - 48)) 0

/-- Source `text.strip()`: drop leading and trailing whitespace. -/
def pyStrip (s : String) : String :=
  String.mk (((s.data.dropWhile Char.isWhitespace).reverse.dropWhile Char.isWhitespace).reverse)

/-- Model of Python's `int(s)`: optional surrounding whitespace, an optional
sign, then at least one decimal digit; anything else raises, modelled `none`. -/
def pyInt (s : String) : Option ℤ :=
  let cs := (pyStrip s).data
  let core : List Char → Option ℤ := fun ds =>
    if ds ≠ [] ∧ ds.all Char.isDigit then some (digitsVal ds : ℤ) else none
  match cs with
  | '+' :: ds => core ds
  | '-' :: ds => (core ds).map Int.neg
  | ds => core ds

/-- Source `s.split('/')[0]`. -/
def beforeSlash (s : String) : String := String.mk (s.data.takeWhile (· ≠ '/'))

/-- Python truthiness of an optional string value (`None` and `""` are falsy). -/
def truthy : Option String → Bool
  | none => false
  | some s => s ≠ ""

/-! ### Collected parameters (`CollectionAgent.REQUIRED_PARAMS`) -/

/-- The fixed field set `{emotion, causes, duration, symptomes, intensite}`;
`none` models an absent dict key. -/
structure PyParams where
  emotion : Option String := none
  causes : Option String := none
  duration : Option String := none
  symptomes : Option String := none
  intensite : Option String := none
deriving DecidableEq

/-- The update loop of `CollectionAgent.collect_parameters`:
`if value and not collected.get(key): collected[key] = value`. -/
def mergeField (old new : Option String) : Option String :=
  if truthy new ∧ ¬ truthy old then new else old

/-- Merge newly extracted fields into the collected dict, per field. -/
def mergeParams (old new : PyParams) : PyParams where
  emotion := mergeField old.emotion new.emotion
  causes := mergeField old.causes new.causes
  duration := mergeField old.duration new.duration
  symptomes := mergeField old.symptomes new.symptomes
  intensite := mergeField old.intensite new.intensite

/-- Source `missing = [p for p in REQUIRED_PARAMS if not collected.get(p)]`,
in the source's field order. -/
def missingParams (p : PyParams) : List String :=
  (if truthy p.emotion then [] else ["emotion"]) ++
  (if truthy p.causes then [] else ["causes"]) ++
  (if truthy p.duration then [] else ["duration"]) ++
  (if truthy p.symptomes then [] else ["symptomes"]) ++
  (if truthy p.intensite then [] else ["intensite"])

/-! ### `AnalysisAgent.analyze_psychological_state` -/

/-- Source `int(str(intensite).split('/')[0]) if intensite else 5`, with the
surrounding `try/except` defaulting to 5; `collected_params.get('intensite', '5')`
supplies the dict default. -/
def intensiteNum (p : PyParams) : ℤ :=
  let i := p.intensite.getD "5"
  if i = "" then 5 else (pyInt (beforeSlash i)).getD 5

/-- Source `critical_emotions` from the source. -/
def criticalEmotions : List String :=
  ["suicide", "suicidaire", "dépression", "désespoir", "mort"]

/-- Step 2 of the scorer (running pair `(severity_level, urgency_score)`):
critical emotion terms. -/
def sevStepEmotion (emotion : String) (su : String × ℤ) : String × ℤ :=
  if criticalEmotions.any (fun w => strContains (pyLower emotion) w) then
    ("Élevé", 10)
  else su

/-- Step 3 of the scorer: long-running duration terms. -/
def sevStepDuration (durationLower : String) (su : String × ℤ) : String × ℤ :=
  if ["mois", "ans", "année", "longtemps"].any (fun w => strContains durationLower w) then
    ((if su.1 ≠ "Élevé" then "Modéré" else su.1), min 10 (su.2 + 2))
  else su

/-- Steps 4/5 of the scorer: intensity thresholds. -/
def sevStepIntensity (iNum : ℤ) (su : String × ℤ) : String × ℤ :=
  if iNum ≥ 8 then ("Élevé", max su.2 9)
  else if iNum ≥ 6 then ((if su.1 ≠ "Élevé" then "Modéré" else su.1), max su.2 7)
  else su

/-- Source `_analyze_sentiment_simple`. -/
def analyze_sentiment_simple (text : String) : ℚ :=
  let tl := pyLower text
  let negativeWords := ["triste", "mal", "déprimé", "anxieux", "stressé",
    "peur", "colère", "désespoir", "seul", "vide"]
  let positiveWords := ["bien", "heureux", "content", "motivé", "calme",
    "espoir", "mieux", "confiant"]
  let negCount : ℤ := (negativeWords.filter (fun w => strContains tl w)).length
  let posCount : ℤ := (positiveWords.filter (fun w => strContains tl w)).length
  let total := negCount + posCount
  if total = 0 then 0
  else max (-1) (min 1 ((posCount - negCount : ℚ) / (total : ℚ)))

/-- Result of `analyze_psychological_state`. -/
structure Assessment where
  severity_level : String
  urgency_score : ℤ
  taux_mal_etre : ℚ
  sentiment_score : ℚ
  needs_orientation : Bool
  recommendations : List String
deriving DecidableEq

/-- Source `AnalysisAgent.analyze_psychological_state`. -/
def analyze_psychological_state (p : PyParams) (user_text : String := "") : Assessment :=
  let emotion := p.emotion.getD ""
  let duration := p.duration.getD ""
  let symptomes := p.symptomes.getD ""
  let iNum := intensiteNum p
  let durationLower := pyLower duration
  let su := sevStepIntensity iNum
    (sevStepDuration durationLower (sevStepEmotion emotion ("Faible", iNum)))
  let severity := su.1
  let urgency := su.2
  let taux : ℚ := (iNum : ℚ) / 10
  let sentiment := if user_text ≠ "" then analyze_sentiment_simple user_text else 0
  let needsOrientation :=
    severity = "Élevé" ∨ severity = "Modéré" ∨ urgency ≥ 7 ∨
      ["mois", "ans"].any (fun w => strContains durationLower w)
  let recs :=
    (if severity = "Élevé" then ["Consultation psychologique recommandée"] else []) ++
    (if strContains (pyLower symptomes) "insomnie" ∨ strContains (pyLower symptomes) "sommeil"
      then ["Améliorer l\x27hygiène du sommeil"] else []) ++
    (if urgency ≥ 7 then ["Suivi professionnel conseillé"] else [])
  { severity_level := severity
    urgency_score := urgency
    taux_mal_etre := taux
    sentiment_score := sentiment
    needs_orientation := needsOrientation
    recommendations := recs }

/-- Rank of the three severity strings, for monotonicity statements. -/
def sevRank : String → ℕ
  | "Modéré" => 1
  | "Élevé" => 2
  | _ => 0

/-! ### `BookingAgent` -/

/-- A consultation slot, as produced by `generate_slots` / `_fallback_slots`. -/
structure Slot where
  date : String
  time : String
  provider_name : String
  booking_link : String
  mode : String
deriving DecidableEq

/-- The context dict consumed by `should_propose_slots`; `none` models an
absent key, the getters below apply the source's `.get` defaults. -/
structure BookingContext where
  severity_level : Option String := none
  urgency_score : Option ℤ := none
  duration : Option String := none
  symptomes : Option String := none
  is_emergency : Option Bool := none
deriving DecidableEq

/-- Source `re.search(r'(\d+)\s*semaines?', duration_lower)`, returning `group(1)` as a
number: the leftmost digit run that is followed (after optional whitespace) by
the literal `semaine`. -/
def weekPattern : List Char → Option ℕ
  | [] => none
  | c :: rest =>
    if c.isDigit then
      let run := (c :: rest).takeWhile Char.isDigit
      let after := ((c :: rest).dropWhile Char.isDigit).dropWhile Char.isWhitespace
      if "semaine".data.isPrefixOf after then some (digitsVal run)
      else weekPattern rest
    else weekPattern rest

/-- Source `BookingAgent.should_propose_slots`: ordered short-circuit rules. -/
def should_propose_slots (ctx : BookingContext) : Bool :=
  let severity_level := ctx.severity_level.getD "Faible"
  let urgency_score := ctx.urgency_score.getD 0
  let duration := ctx.duration.getD ""
  let is_emergency := ctx.is_emergency.getD false
  -- PRIORITÉ 0: urgence
  if is_emergency then true
  -- Cas 1: sévérité élevée
  else if severity_level = "Élevé" ∨ severity_level = "Elevé" then true
  -- Cas 2: score d'urgence ≥ 7
  else if urgency_score ≥ 7 then true
  -- Cas 3: durée longue (mois/ans)
  else if ["mois", "ans", "années", "année"].any
      (fun w => strContains (pyLower duration) w) then true
  -- Cas 4: plus de 2 semaines
  else if (weekPattern (pyLower duration).data).getD 0 > 2 then true
  -- Cas 5: sévérité modérée
  else if severity_level = "Modéré" then true
  else false

/-- Source `BookingAgent._get_booking_reason`. -/
def get_booking_reason (ctx : BookingContext) : String :=
  if ctx.is_emergency.getD false then
    "En raison de l\x27urgence de votre situation, je vous propose des créneaux de consultation immédiate."
  else if ctx.severity_level.getD "" = "Élevé" ∨ ctx.severity_level.getD "" = "Elevé" then
    "Votre situation nécessite un accompagnement professionnel. Voici des créneaux disponibles."
  else if ctx.urgency_score.getD 0 ≥ 7 then
    "Compte tenu du niveau d\x27urgence de votre situation, je vous recommande de consulter rapidement."
  else
    "Je vous propose des créneaux de consultation pour un suivi adapté à votre situation."

/-- Source `BookingAgent._fallback_slots`; the three `datetime.now()+timedelta` dates
come from the clock, an external input, passed in as `nowPlus`. -/
def fallback_slots (nowPlus : ℕ → String) : List Slot :=
  [{ date := nowPlus 2, time := "10:00", provider_name := "Dr. Martin Dubois",
     booking_link := "https://www.doctolib.fr/booking/demo", mode := "présentiel" },
   { date := nowPlus 5, time := "14:30", provider_name := "Dr. Sophie Laurent",
     booking_link := "https://www.doctolib.fr/booking/demo", mode := "téléconsultation" },
   { date := nowPlus 7, time := "16:00", provider_name := "Dr. Claire Bernard",
     booking_link := "https://www.doctolib.fr/booking/demo", mode := "présentiel" }]

/-- Source `BookingAgent.process_booking_decision` result. -/
structure BookingResult where
  needs_booking : Bool
  slots : List Slot
  reason : String
deriving DecidableEq

/-- Source `BookingAgent.process_booking_decision`; `genSlots` is the observed outcome
of `generate_slots`'s Gemini call (`none` = unavailable/failed → fallback). -/
def process_booking_decision (genSlots : Option (List Slot)) (nowPlus : ℕ → String)
    (ctx : BookingContext) : BookingResult :=
  let needs := should_propose_slots ctx
  if needs then
    { needs_booking := true
      slots := genSlots.getD (fallback_slots nowPlus)
      reason := get_booking_reason ctx }
  else
    { needs_booking := false, slots := []
      reason := "Situation ne nécessite pas de consultation immédiate" }

/-! ### `CalendarAgent` -/

/-- A Google-Calendar event as returned by the read endpoint; `none` models an
absent dict key, with the source's `.get` defaults applied at each use site. -/
structure Event where
  id : Option String := none
  title : Option String := none
  duration_hours : Option ℚ := none
  priority : Option ℤ := none
  start : Option String := none
deriving DecidableEq

/-- Source `e.get('duration_hours', 1)` (the default used in the deletion loop and the
sort key). -/
def dur1 (e : Event) : ℚ := e.duration_hours.getD 1

/-- Source `e.get('duration_hours', 0)` (the default used when summing the load). -/
def dur0 (e : Event) : ℚ := e.duration_hours.getD 0

/-- Source `e.get('priority', 5)`. -/
def prio (e : Event) : ℤ := e.priority.getD 5

/-- Python truthiness of `event.get('id')` (absent or empty ids are skipped). -/
def idTruthy (e : Event) : Bool := e.id.getD "" ≠ ""

/-- Comparator of `sorted(details_evenements, key=lambda e: (e.get('priority',5),
-e.get('duration_hours',1)))`: priority ascending, duration descending. -/
def evLe (a b : Event) : Bool :=
  prio a < prio b ∨ (prio a = prio b ∧ dur1 b ≤ dur1 a)

/-- One entry of `proposed_changes` (a DELETE proposal). -/
structure Proposal where
  action : String
  event_id : Option String
  event_title : String
  event_start : String
  duration : ℚ
  reason : String
deriving DecidableEq

/-- One entry of `actions_effectuees` (an executed ADD). -/
structure ActionDone where
  action : String
  event_title : String
  duration : ℚ
  reason : String
deriving DecidableEq

/-- Payload POSTed to the calendar write endpoint by `executer_action_agenda`. -/
structure WritePayload where
  date : String
  title : String
  duration_hours : ℚ
  description : String
  action : String
deriving DecidableEq

/-- The deletion loop of `_handle_overload_case`: stop once
`freed_hours >= hours_to_free`, skip events whose id is falsy, otherwise append
a DELETE proposal and accumulate `duration_hours` (default 1).
`total` only feeds the reason string (Python float formatting abstracted to
`toString` of the rational). -/
def proposeDeletions (hoursToFree total : ℚ) : List Event → ℚ → List Proposal
  | [], _ => []
  | e :: rest, freed =>
    if hoursToFree ≤ freed then []
    else if idTruthy e then
      { action := "DELETE", event_id := e.id
        event_title := e.title.getD "Sans titre"
        event_start := e.start.getD "N/A"
        duration := dur1 e
        reason := "Alléger la charge (actuellement " ++ toString total ++ "h)" }
        :: proposeDeletions hoursToFree total rest (freed + dur1 e)
    else proposeDeletions hoursToFree total rest freed

/-- Result dict of `analyze_calendar_load` and its two case handlers.
`writes` is the trace of payloads actually POSTed through
`executer_action_agenda` during the call (the proof-level record of external
mutation attempts). -/
structure CalResult where
  charge_totale_heures : ℚ
  nombre_evenements : ℕ
  charge_excessive : Bool
  proposed_changes : List Proposal
  actions_effectuees : List ActionDone
  calendar_message : String
  awaiting_confirmation : Bool
  writes : List WritePayload
deriving DecidableEq

/-- Source `CalendarAgent._handle_overload_case`: sort, then greedily propose
deletions; no write call is made. -/
def handle_overload_case (total taux : ℚ) (events : List Event) : CalResult :=
  let hoursToFree := total - 8
  let sortedEvents := events.mergeSort evLe
  let proposed := proposeDeletions hoursToFree total sortedEvents 0
  let message :=
    if proposed.length > 0 then
      "Je comprends que votre journée est chargée (" ++ toString total ++
        "h). Pour vous aider à retrouver un meilleur équilibre, j\x27ai identifié " ++
        toString proposed.length ++ " événement(s) qui pourraient être reportés ou annulés."
    else "⚠️ Impossible d\x27identifier des événements à supprimer automatiquement."
  { charge_totale_heures := total
    nombre_evenements := events.length
    charge_excessive := true
    proposed_changes := proposed
    actions_effectuees := []
    calendar_message := message
    awaiting_confirmation := proposed.length > 0
    writes := [] }

/-- The `payload_add` of `_handle_wellbeing_case`, with the `action: add` field
merged in by `executer_action_agenda`. -/
def wellbeingPayload (date : String) (total taux : ℚ) : WritePayload :=
  { date := date
    title := "Pause Bien-être Recommandée"
    duration_hours := 1
    description := "Ajouté automatiquement : charge légère (" ++ toString total ++
      "h), mal-être faible (" ++ toString taux ++ "%)."
    action := "add" }

/-- Source `CalendarAgent._handle_wellbeing_case`: attempt exactly one ADD via the
write endpoint (`write` is the endpoint's observed response); on failure keep an
explanatory message, no retry. -/
def handle_wellbeing_case (write : WritePayload → Bool × String)
    (date : String) (total taux : ℚ) (events : List Event) : CalResult :=
  let payload := wellbeingPayload date total taux
  let addResult := write payload
  let message :=
    if addResult.1 then
      "🌿 J\x27ai ajouté une pause bien-être à votre agenda pour favoriser votre équilibre."
    else "⚠️ Impossible d\x27ajouter la pause : " ++ addResult.2
  let actions : List ActionDone :=
    if addResult.1 then
      [{ action := "ADD", event_title := "Pause Bien-être Recommandée", duration := 1
         reason := "Charge faible (" ++ toString total ++ "h) + Bien-être élevé (" ++
           toString taux ++ "%)" }]
    else []
  { charge_totale_heures := total
    nombre_evenements := events.length
    charge_excessive := false
    proposed_changes := []
    actions_effectuees := actions
    calendar_message := message
    awaiting_confirmation := false
    writes := [payload] }

/-- The empty/neutral result returned when the agenda is empty or unreadable,
and (with the actual load figures) in the normal case. -/
def neutralCalResult (total : ℚ) (nEvents : ℕ) (excessive : Bool) : CalResult :=
  { charge_totale_heures := total
    nombre_evenements := nEvents
    charge_excessive := excessive
    proposed_changes := []
    actions_effectuees := []
    calendar_message := ""
    awaiting_confirmation := false
    writes := [] }

/-- Source `CalendarAgent.analyze_calendar_load` given the read endpoint's observed
answer for the date (`none` = endpoint unconfigured, HTTP error or non-200
code: `consulter_agenda` then yields `([], 0.0)`) and the write endpoint
`write`; `taux_mal_etre` is on the 0–100 scale. -/
def analyze_calendar_load (write : WritePayload → Bool × String)
    (readRes : Option (List Event)) (date : String) (taux : ℚ) : CalResult :=
  let events := readRes.getD []
  let total := (events.map dur0).sum
  if events = [] then neutralCalResult 0 0 false
  else
    let excessive := total > 8
    if excessive ∧ taux > 50 then handle_overload_case total taux events
    else if ¬ excessive ∧ taux < 30 then handle_wellbeing_case write date total taux events
    else neutralCalResult total events.length excessive

/-- Source `CalendarAgent.process_calendar_analysis`: converts the assessment's 0–1
distress ratio to 0–100 and delegates. -/
def process_calendar_analysis (write : WritePayload → Bool × String)
    (readRes : Option (List Event)) (date : String) (analysis : Assessment) : CalResult :=
  analyze_calendar_load write readRes date (analysis.taux_mal_etre * 100)

/-! ### `EmergencyAgent` -/

/-- Source `critical_self_harm`, in source order. -/
def critical_self_harm : List String :=
  ["suicide", "suicidaire", "me tuer", "en finir",
   "je veux mourir", "plus envie de vivre",
   "mettre fin à mes jours", "me suicider",
   "overdose", "surdose", "avaler des pilules",
   "me jeter", "sauter", "pendaison", "pendre"]

/-- Result of `EmergencyAgent.detect_emergency`. -/
structure EmergencyData where
  is_emergency : Bool
  level : String
  keywords_found : List String
  type : Option String
  urgency_score : ℤ
deriving DecidableEq

/-- Source `EmergencyAgent.detect_emergency`: case-insensitive substring scan against
the critical-phrase list. -/
def detect_emergency (text : String) : EmergencyData :=
  let textLower := pyLower text
  let keywordsFound := critical_self_harm.filter (fun k => strContains textLower k)
  if keywordsFound ≠ [] then
    { is_emergency := true, level := "CRITIQUE", keywords_found := keywordsFound
      type := some "self_harm", urgency_score := 10 }
  else
    { is_emergency := false, level := "NORMAL", keywords_found := []
      type := none, urgency_score := 0 }

/-- An emergency protocol (`_get_emergency_protocol` return value, banner
omitted: pure display data no claim touches). -/
structure Protocol where
  hotline : String
  hotline_name : String
  message : String
  actions : List String
deriving DecidableEq

/-- Source `EmergencyAgent._get_emergency_protocol`. -/
def get_emergency_protocol (crisis_type : Option String) : Protocol :=
  if crisis_type = some "self_harm" then
    { hotline := "3114"
      hotline_name := "Numéro National de Prévention du Suicide"
      message := "Votre sécurité est notre priorité. Le 3114 est disponible 24h/24 et 7j/7."
      actions := ["Appeler le 3114 immédiatement",
                  "Contacter un proche de confiance",
                  "Se rendre aux urgences si danger imminent"] }
  else
    { hotline := "15"
      hotline_name := "SAMU"
      message := "En cas d\x27urgence médicale, contactez le 15."
      actions := ["Appeler le 15 si danger imminent"] }

/-- Result of `EmergencyAgent.handle_crisis`; `protocol`/`booking` are `none`
exactly when the corresponding dict keys are absent (non-emergency branch). -/
structure CrisisResult where
  is_emergency : Bool
  emergency_data : EmergencyData
  booking : Option BookingResult
  protocol : Option Protocol
deriving DecidableEq

/-- Source `EmergencyAgent.handle_crisis` (the crisis-resources list is a pure
constant the orchestrator never reads back; it is not re-modelled). -/
def handle_crisis (genSlots : Option (List Slot)) (nowPlus : ℕ → String)
    (user_message : String) : CrisisResult :=
  let emergencyData := detect_emergency user_message
  if ¬ emergencyData.is_emergency then
    { is_emergency := false, emergency_data := emergencyData
      booking := none, protocol := none }
  else
    -- crisis_context: is_emergency=True, severity 'Élevé', urgency 10,
    -- duration 'immédiat'; symptomes holds the keyword list, which the
    -- booking policy reads but never uses.
    let crisisCtx : BookingContext :=
      { severity_level := some "Élevé", urgency_score := some 10
        duration := some "immédiat", symptomes := none, is_emergency := some true }
    { is_emergency := true
      emergency_data := emergencyData
      booking := some (process_booking_decision genSlots nowPlus crisisCtx)
      protocol := some (get_emergency_protocol emergencyData.type) }

/-! ### External collaborators (spec §6)

One environment of uninterpreted functions records the observed outcome of each
call into the excluded Gemini service, the clock, and the calendar endpoint.
`none` stands for a failed/unavailable call where the source catches the error
and falls back. (`_handle_emergency` reads the undefined attribute
`self.gemini_model`, so in the running program the empathetic-reply call always
raises and falls back; `genEmpathetic` still allows a successful outcome, which
only makes the theorems quantify over more behaviours.) -/
structure Env where
  /-- Source `_extract_params_with_gemini` outcome; extraction/parsing failures are the
  source's `return {}`, i.e. the all-`none` record. -/
  extract : String → PyParams
  /-- Source `_generate_question_for_param`'s Gemini call outcome (already stripped). -/
  genQuestion : String → PyParams → Option String
  /-- Empathetic crisis-reply generation outcome. -/
  genEmpathetic : String → Option String
  /-- Source `ConversationAgent.process_conversation_turn(...)['response']`: generated
  text with the agent's internal fallbacks folded in (no claim reads it). -/
  convTurn : String → PyParams → Option String → String
  /-- Source `generate_slots`'s Gemini call outcome. -/
  genSlots : Option (List Slot)
  /-- Source `(datetime.now() + timedelta(days=n)).strftime('%Y-%m-%d')`. -/
  nowPlus : ℕ → String
  /-- Whether `agenda_endpoint` is configured. -/
  agendaConfigured : Bool
  /-- Calendar read outcome for a date (`none` = network error or non-200). -/
  readAgenda : String → Option (List Event)
  /-- Calendar write outcome `(success, message)` for a POSTed payload. -/
  calWrite : WritePayload → Bool × String

/-! ### `CollectionAgent` -/

/-- Source `fallback_questions` of `_generate_question_for_param`. -/
def fallback_questions (param : String) : String :=
  if param = "emotion" then "Comment vous sentez-vous en ce moment ?"
  else if param = "causes" then "Selon vous, qu\x27est-ce qui pourrait expliquer cet état ?"
  else if param = "duration" then "Depuis combien de temps ressentez-vous cela ?"
  else if param = "symptomes" then
    "Avez-vous remarqué des symptômes particuliers (sommeil, appétit, concentration) ?"
  else if param = "intensite" then
    "Sur une échelle de 1 à 10, à quel point ressentez-vous cet inconfort ?"
  else "Pouvez-vous m\x27en dire plus ?"

/-- Source `_generate_question_for_param`: Gemini question (forced to end in `?`), or
on failure the fallback question with its duration/emotion personalisation.
(The model-unavailable path returns the plain fallback; it is folded into the
failure outcome, as no claim reads question text.) -/
def generate_question_for_param (env : Env) (param : String) (collected : PyParams) : String :=
  match env.genQuestion param collected with
  | some q => if q.endsWith "?" then q else q ++ " ?"
  | none =>
    if param = "duration" ∧ truthy collected.emotion then
      "Depuis combien de temps ressentez-vous " ++ collected.emotion.getD "" ++ " ?"
    else fallback_questions param

/-- Result of `CollectionAgent.collect_parameters`. -/
structure CollectResult where
  is_complete : Bool
  collected_params : PyParams
  missing_params : List String
  next_question : Option String
  completion_rate : ℚ
deriving DecidableEq

/-- Source `CollectionAgent.collect_parameters`: merge truthy newly-extracted values
into unset fields only, recompute the missing list and completion rate, and
ask for the first missing field. -/
def collect_parameters (env : Env) (user_text : String) (current : PyParams) : CollectResult :=
  let collected := mergeParams current (env.extract user_text)
  let missing := missingParams collected
  let completionRate : ℚ := (5 - (missing.length : ℚ)) / 5
  if missing = [] then
    { is_complete := true, collected_params := collected, missing_params := []
      next_question := none, completion_rate := 1 }
  else
    { is_complete := false, collected_params := collected, missing_params := missing
      next_question := some (generate_question_for_param env (missing.headD "") collected)
      completion_rate := completionRate }

/-! ### `ZenflowOrchestrator` state machine -/

/-- Source `ConversationState`. -/
inductive ConvState where
  | ROUTING
  | HANDLING_EMERGENCY
  | COLLECTING_PARAMS
  | WAITING_USER_CONFIRMATION
  | ANALYZING_AND_RESPONDING
  | FINAL_RESPONSE_READY
deriving DecidableEq

/-- A turn's `final_response` dict; `none` in an `Option` field models an
absent key (the emergency response, for instance, carries no `needs_booking`).
`session_id`, timestamps and the recommendation list are pass-through data no
claim reads and are omitted. -/
structure Response where
  success : Bool
  response : String
  is_emergency : Bool
  needs_booking : Option Bool := none
  slots : Option (List Slot) := none
  protocol : Option Protocol := none
  analysis : Option Assessment := none
  calendar_analysis : Option CalResult := none
  params_complete : Bool
  completion_rate : Option ℚ := none
  awaiting_confirmation : Option Bool := none
  awaiting_more_info : Option Bool := none
  collected_params : Option PyParams := none
  agents_used : List String
deriving DecidableEq

/-- A session record. `user_confirmed` is read through `.get(_, False)` in the
source, so the absent key is the value `false`; the stored `emergency_data` /
`protocol` copies and the append-only history are never read back by any
handler and are omitted. -/
structure Session where
  session_id : String
  state : ConvState
  collected_params : PyParams := {}
  params_complete : Bool := false
  is_emergency : Bool := false
  user_confirmed : Bool := false
  next_state : Option ConvState := none
  final_response : Option Response := none
deriving DecidableEq

/-- Source `_handle_routing`: emergency detection first, then dispatch on
completion/confirmation. -/
def handle_routing (s : Session) (user_message : String) : Session :=
  if (detect_emergency user_message).is_emergency then
    { s with state := .HANDLING_EMERGENCY }
  else if s.params_complete ∧ s.user_confirmed then
    { s with state := .ANALYZING_AND_RESPONDING }
  else if s.params_complete ∧ ¬ s.user_confirmed then
    { s with state := .WAITING_USER_CONFIRMATION }
  else
    { s with state := .COLLECTING_PARAMS }

/-- The fixed fallback empathetic message of `_handle_emergency`. -/
def fallbackEmpathique : String :=
  "Je m\x27inquiète vraiment pour toi... Pourquoi vouloir en finir ? " ++
  "Qu\x27est-ce qui te fait tant souffrir ? Le 3114 est là pour t\x27écouter 24h/24, " ++
  "mais moi aussi je suis là. Raconte-moi ce qui se passe."

/-- Source `_handle_emergency`: crisis protocol, empathetic reply (fallback on
generation failure), parameter extraction from the crisis message, sticky
`is_emergency`, and a scheduled next-turn entry state. -/
def handle_emergency (env : Env) (s : Session) (user_message : String) : Session :=
  let crisis := handle_crisis env.genSlots env.nowPlus user_message
  let emergencyMessage := (env.genEmpathetic user_message).getD fallbackEmpathique
  let collectionResult := collect_parameters env user_message s.collected_params
  let finalText :=
    if ¬ collectionResult.is_complete then
      emergencyMessage ++ "\n\n" ++ (collectionResult.next_question.getD "")
    else emergencyMessage
  let ns : ConvState :=
    if ¬ collectionResult.is_complete then .COLLECTING_PARAMS
    else .WAITING_USER_CONFIRMATION
  { s with
    is_emergency := true
    collected_params := collectionResult.collected_params
    next_state := some ns
    state := .FINAL_RESPONSE_READY
    final_response := some
      { success := true
        response := finalText
        is_emergency := true
        protocol := crisis.protocol
        params_complete := collectionResult.is_complete
        collected_params := some collectionResult.collected_params
        agents_used := ["EmergencyAgent", "CollectionAgent"] } }

/-- The confirmation prompt of `_handle_collecting_params`. -/
def confirmationMessage : String :=
  "Je vous ai bien écouté. Souhaitez-vous ajouter quelque chose d\x27autre " ++
  "ou préférez-vous que je vous propose des solutions maintenant ?"

/-- Source `_handle_collecting_params`: merge extracted fields; when complete, emit
the confirmation prompt and schedule WAITING_USER_CONFIRMATION, else emit the
next intake question. -/
def handle_collecting_params (env : Env) (s : Session) (user_message : String) : Session :=
  let res := collect_parameters env user_message s.collected_params
  if res.is_complete then
    { s with
      collected_params := res.collected_params
      params_complete := true
      next_state := some .WAITING_USER_CONFIRMATION
      state := .FINAL_RESPONSE_READY
      final_response := some
        { success := true
          response := confirmationMessage
          is_emergency := s.is_emergency
          needs_booking := some false
          slots := some []
          params_complete := true
          awaiting_confirmation := some true
          collected_params := some res.collected_params
          agents_used := ["AnalysisAgent", "ConversationAgent"] } }
  else
    { s with
      collected_params := res.collected_params
      params_complete := false
      state := .FINAL_RESPONSE_READY
      final_response := some
        { success := true
          response := env.convTurn user_message res.collected_params res.next_question
          is_emergency := false
          needs_booking := some false
          slots := some []
          params_complete := false
          completion_rate := some res.completion_rate
          agents_used := ["AnalysisAgent", "ConversationAgent"] } }

/-- The exact-match negative tokens of `_handle_waiting_confirmation`. -/
def negativeTokens : List String :=
  ["non", "n", "no", "nope", "rien", "rien à ajouter", "c\x27est tout", "ça suffit"]

/-- The exact-match positive tokens of `_handle_waiting_confirmation`. -/
def positiveTokens : List String := ["oui", "o", "yes", "ouais", "ok"]

/-- Source `_handle_waiting_confirmation`: negative token → confirmed, advance to
analysis; positive token or raw length > 10 → reopen intake; otherwise default
to confirmed. -/
def handle_waiting_confirmation (s : Session) (user_message : String) : Session :=
  let ml := pyStrip (pyLower user_message)
  if ml ∈ negativeTokens then
    { s with user_confirmed := true, state := .ANALYZING_AND_RESPONDING }
  else if ml ∈ positiveTokens ∨ user_message.length > 10 then
    { s with
      user_confirmed := false
      params_complete := false
      state := .FINAL_RESPONSE_READY
      final_response := some
        { success := true
          response := "Je vous écoute. N\x27hésitez pas à me dire tout ce qui vous pèse."
          is_emergency := s.is_emergency
          needs_booking := some false
          slots := some []
          params_complete := true
          awaiting_more_info := some true
          agents_used := ["ConversationAgent"] } }
  else
    { s with user_confirmed := true, state := .ANALYZING_AND_RESPONDING }

/-- Source `_run_calendar_agent`: skipped (`{}` → `none`) when no endpoint is
configured, else the pipeline on the forced test date. -/
def run_calendar_agent (env : Env) (analysis : Assessment) : Option CalResult :=
  if ¬ env.agendaConfigured then none
  else some (process_calendar_analysis env.calWrite (env.readAgenda "2025-10-30")
    "2025-10-30" analysis)

/-- Source `_run_booking_agent`: note the context passes no `is_emergency` key. -/
def run_booking_agent (env : Env) (analysis : Assessment) (collected : PyParams) :
    BookingResult :=
  process_booking_decision env.genSlots env.nowPlus
    { severity_level := some analysis.severity_level
      urgency_score := some analysis.urgency_score
      duration := some (collected.duration.getD "")
      symptomes := some (collected.symptomes.getD "")
      is_emergency := none }

/-- Source `generate_transition_message("recommendations")`, a pure dict lookup. -/
def transitionMessage : String := "Voici des ressources qui pourraient vous aider..."

/-- Source `_handle_analysis_and_response`: scorer → calendar → booking pipeline
(the recommendation list is assembled but no claim reads it). -/
def handle_analysis_and_response (env : Env) (s : Session) (user_message : String) : Session :=
  let analysis := analyze_psychological_state s.collected_params user_message
  let calendarResult := run_calendar_agent env analysis
  let bookingResult := run_booking_agent env analysis s.collected_params
  let finalText := transitionMessage ++
    (if bookingResult.needs_booking then "\n\n" ++ bookingResult.reason else "")
  { s with
    state := .FINAL_RESPONSE_READY
    final_response := some
      { success := true
        response := finalText
        is_emergency := false
        needs_booking := some bookingResult.needs_booking
        slots := some bookingResult.slots
        analysis := some analysis
        calendar_analysis := calendarResult
        params_complete := true
        agents_used := ["AnalysisAgent", "CalendarAgent", "BookingAgent",
          "RecommendationAgent", "ConversationAgent"] } }

/-- One dispatch of the `while` loop of `process_message`. -/
def handleState (env : Env) (user_message : String) (s : Session) : Session :=
  match s.state with
  | .ROUTING => handle_routing s user_message
  | .HANDLING_EMERGENCY => handle_emergency env s user_message
  | .COLLECTING_PARAMS => handle_collecting_params env s user_message
  | .WAITING_USER_CONFIRMATION => handle_waiting_confirmation s user_message
  | .ANALYZING_AND_RESPONDING => handle_analysis_and_response env s user_message
  | .FINAL_RESPONSE_READY => s

/-- The state-machine loop, fuelled; every chain of handlers reaches
FINAL_RESPONSE_READY within three dispatches, so the fuel below is never
exhausted. -/
def stepLoop (env : Env) (user_message : String) : ℕ → Session → Session
  | 0, s => s
  | n + 1, s =>
    if s.state = .FINAL_RESPONSE_READY then s
    else stepLoop env user_message n (handleState env user_message s)

/-- A session as first created for an unknown id. -/
def freshSession (session_id : String) : Session :=
  { session_id := session_id, state := .ROUTING }

/-- Source `_get_or_create_session`: create on first unknown id, then force the entry
state (sticky emergency continues collection, else routing). -/
def get_or_create_session (sess : Option Session) (session_id : String) : Session :=
  let s := sess.getD (freshSession session_id)
  if s.is_emergency then { s with state := .COLLECTING_PARAMS }
  else { s with state := .ROUTING }

/-- The `next_state` consumption at the top of `process_message` (pending entry
state, consumed exactly once). -/
def applyNextState (s : Session) : Session :=
  match s.next_state with
  | some ns => { s with state := ns, next_state := none }
  | none => s

/-- The `session_data.get('final_response', ...)` default (only two keys in the
source dict; the remaining mandatory fields are neutral). -/
def errorResponse : Response :=
  { success := false, response := "Une erreur est survenue.", is_emergency := false
    params_complete := false, agents_used := [] }

/-- Source `ZenflowOrchestrator.process_message` for one session: look up or create
the session, consume the pending entry state, run the loop, return the final
response and the mutated session record. -/
def process_message (env : Env) (sess : Option Session) (session_id user_message : String) :
    Response × Session :=
  let s0 := get_or_create_session sess session_id
  let s1 := applyNextState s0
  let s2 := stepLoop env user_message 6 s1
  (s2.final_response.getD errorResponse, s2)

/-- A sequence of turns against one session id, each with its own observed
external outcomes. -/
def runTurns (session_id : String) (turns : List (Env × String)) (s : Session) : Session :=
  turns.foldl (fun t em => (process_message em.1 (some t) session_id em.2).2) s

/-! ### Observation helpers used by the statements -/

/-- The scorer's running `(severity_level, urgency_score)` after the base and
after each of rules 2–5, in evaluation order (these are the exact intermediate
values of `analyze_psychological_state`). -/
def scorerChain (p : PyParams) : List (String × ℤ) :=
  let c0 := ("Faible", intensiteNum p)
  let c1 := sevStepEmotion (p.emotion.getD "") c0
  let c2 := sevStepDuration (pyLower (p.duration.getD "")) c1
  let c3 := sevStepIntensity (intensiteNum p) c2
  [c0, c1, c2, c3]

/-- Property "Escalation only": along the scorer's evaluation, severity rank and urgency
never decrease. -/
def escalationOnly (p : PyParams) : Prop :=
  (scorerChain p).Chain' fun a b => sevRank a.1 ≤ sevRank b.1 ∧ a.2 ≤ b.2

/-- Total hours of the returned DELETE proposals. -/
def propSum (ps : List Proposal) : ℚ := (ps.map Proposal.duration).sum

/-- Hours (loop default 1) carried by the events that have a truthy id, i.e.
the deletable capacity. -/
def withIdHours (evs : List Event) : ℚ := ((evs.filter idTruthy).map dur1).sum

/-- One collected field is preserved: once truthy, later values equal it. -/
def paramLe (a b : Option String) : Prop := truthy a = true → b = a

/-- First-write-wins order on the collected-parameter record. -/
def paramsLe (p q : PyParams) : Prop :=
  paramLe p.emotion q.emotion ∧ paramLe p.causes q.causes ∧
  paramLe p.duration q.duration ∧ paramLe p.symptomes q.symptomes ∧
  paramLe p.intensite q.intensite

/-- Session-evolution invariant: sticky emergency flag and first-write-wins
collected parameters. -/
def sessionPres (s t : Session) : Prop :=
  (s.is_emergency = true → t.is_emergency = true) ∧
  paramsLe s.collected_params t.collected_params

/-! ### Concrete fixtures for witnesses and counterexamples -/

/-- A deterministic extraction outcome: `"bonjour"` and the crisis utterance
both fill all five fields, everything else extracts nothing. -/
def cExtract : String → PyParams := fun m =>
  if m = "bonjour" then
    { emotion := some "stress", causes := some "travail", duration := some "2 semaines",
      symptomes := some "insomnie", intensite := some "9" }
  else if m = "je veux me suicider" then
    { emotion := some "suicide", causes := some "travail", duration := some "1 mois",
      symptomes := some "insomnie", intensite := some "9" }
  else {}

/-- A concrete environment: every generation call fails (exercising the
fallbacks, as the running program does), no calendar endpoint. -/
def cEnv : Env :=
  { extract := cExtract
    genQuestion := fun _ _ => none
    genEmpathetic := fun _ => none
    convTurn := fun _ _ _ => "ok"
    genSlots := none
    nowPlus := fun _ => "2025-11-01"
    agendaConfigured := false
    readAgenda := fun _ => none
    calWrite := fun _ => (true, "ok") }

/-- Turn 1 of the confirmation scenario: a fresh session whose first message
fills all five fields, yielding the confirmation prompt and scheduling
WAITING_USER_CONFIRMATION. -/
def demoTurn1 : Response × Session := process_message cEnv none "s1" "bonjour"

/-- Turn 1 of the crisis scenario: a fresh session receives the crisis
utterance (which also fills all five fields). -/
def crisisTurn1 : Response × Session := process_message cEnv none "s2" "je veux me suicider"

/-- A removable 3-hour event of priority 1. -/
def cEventA : Event :=
  { id := some "a", title := some "Réunion", duration_hours := some 3
    priority := some 1, start := some "09:00" }

/-- A removable 7-hour event of priority 2. -/
def cEventB : Event :=
  { id := some "b", title := some "Projet", duration_hours := some 7
    priority := some 2, start := some "13:00" }

/-- A 5-hour event for the underload scenario. -/
def cEventC : Event :=
  { id := some "c", title := some "Atelier", duration_hours := some 5
    priority := some 3, start := some "10:00" }

/-- A session already flagged as emergency with one collected field, for the
invariant witness. -/
def wSession : Session :=
  { session_id := "w", state := .ROUTING
    collected_params := { emotion := some "stress" }
    is_emergency := true }

/-! ## Scorer lemmas -/

theorem sevRank_le_two (s : String) : sevRank s ≤ 2 := by
  unfold sevRank; split <;> omega

theorem sevRank_of_ne_eleve (s : String) (h : s ≠ "Élevé") : sevRank s ≤ 1 := by
  unfold sevRank; split <;> simp_all

theorem stepEmotion_mono (e : String) (su : String × ℤ) (hu : su.2 ≤ 10) :
    sevRank su.1 ≤ sevRank (sevStepEmotion e su).1 ∧
    su.2 ≤ (sevStepEmotion e su).2 ∧ (sevStepEmotion e su).2 ≤ 10 := by
  unfold sevStepEmotion
  split
  · exact ⟨sevRank_le_two su.1, hu, le_rfl⟩
  · exact ⟨le_rfl, le_rfl, hu⟩

theorem stepDuration_mono (d : String) (su : String × ℤ) (hu : su.2 ≤ 10) :
    sevRank su.1 ≤ sevRank (sevStepDuration d su).1 ∧
    su.2 ≤ (sevStepDuration d su).2 ∧ (sevStepDuration d su).2 ≤ 10 := by
  unfold sevStepDuration
  split
  · refine ⟨?_, ?_, ?_⟩
    · show sevRank su.1 ≤ sevRank (if su.1 ≠ "Élevé" then "Modéré" else su.1)
      split
      · next hne => exact le_trans (sevRank_of_ne_eleve su.1 hne) (by decide)
      · exact le_rfl
    · show su.2 ≤ min 10 (su.2 + 2)
      omega
    · show min 10 (su.2 + 2) ≤ 10
      omega
  · exact ⟨le_rfl, le_rfl, hu⟩

theorem stepIntensity_mono (i : ℤ) (su : String × ℤ) (hu : su.2 ≤ 10) :
    sevRank su.1 ≤ sevRank (sevStepIntensity i su).1 ∧
    su.2 ≤ (sevStepIntensity i su).2 ∧ (sevStepIntensity i su).2 ≤ 10 := by
  unfold sevStepIntensity
  split
  · exact ⟨sevRank_le_two su.1, le_max_left su.2 9, by show max su.2 9 ≤ 10; omega⟩
  · split
    · refine ⟨?_, le_max_left su.2 7, by show max su.2 7 ≤ 10; omega⟩
      show sevRank su.1 ≤ sevRank (if su.1 ≠ "Élevé" then "Modéré" else su.1)
      split
      · next hne => exact le_trans (sevRank_of_ne_eleve su.1 hne) (by decide)
      · exact le_rfl
    · exact ⟨le_rfl, le_rfl, hu⟩

theorem sentiment_bounds (t : String) :
    -1 ≤ analyze_sentiment_simple t ∧ analyze_sentiment_simple t ≤ 1 := by
  constructor <;>
  · simp only [analyze_sentiment_simple]
    split
    · norm_num
    · first
        | exact le_max_left _ _
        | exact max_le (by norm_num) (min_le_left _ _)

/-! ## Claims C4, C5, C6 -/

/-- C4 (counterexample): with intensity `"15"` and the critical emotion
`"suicide"`, the base urgency is 15 but rule 2 then sets urgency to 10 — a
later rule yields a lower urgency than one established earlier, so the
claim as stated is false at this input. -/
theorem C4_counterexample :
    ¬ escalationOnly { emotion := some "suicide", intensite := some "15" } := by
  intro h
  unfold escalationOnly scorerChain at h
  simp only [List.chain'_cons, List.chain'_singleton, and_true] at h
  have h12 := h.1.2
  have e1 : intensiteNum { emotion := some "suicide", intensite := some "15" } = 15 := by
    decide
  rw [e1] at h12
  have e2 : (sevStepEmotion ((some "suicide").getD "") ("Faible", (15 : ℤ))).2 = 10 := by
    decide
  rw [e2] at h12
  exact absurd h12 (by decide)

/-- C4 (amended): whenever the parsed base urgency is at most 10 (i.e. the
intensity respects its 1–10 contract), every rule of one evaluation of
`analyze_psychological_state` only moves severity and urgency upward relative
to the running value. -/
theorem C4_escalation_only (p : PyParams) (h : intensiteNum p ≤ 10) :
    escalationOnly p := by
  unfold escalationOnly scorerChain
  have h1 := stepEmotion_mono (p.emotion.getD "") ("Faible", intensiteNum p) h
  have h2 := stepDuration_mono (pyLower (p.duration.getD ""))
    (sevStepEmotion (p.emotion.getD "") ("Faible", intensiteNum p)) h1.2.2
  have h3 := stepIntensity_mono (intensiteNum p)
    (sevStepDuration (pyLower (p.duration.getD ""))
      (sevStepEmotion (p.emotion.getD "") ("Faible", intensiteNum p))) h2.2.2
  simp only [List.chain'_cons, List.chain'_singleton, and_true]
  exact ⟨⟨h1.1, h1.2.1⟩, ⟨h2.1, h2.2.1⟩, h3.1, h3.2.1⟩

/-- C4 (witness): a concrete evaluation with intensity 9. -/
theorem C4_witness :
    intensiteNum { emotion := some "stress", intensite := some "9" } ≤ 10 ∧
    escalationOnly { emotion := some "stress", intensite := some "9" } :=
  ⟨by decide, C4_escalation_only _ (by decide)⟩

/-- C5 (counterexample): intensity `"15"` parses to base 15, and with no other
field set the returned urgency is 15 ∉ [0,10] and the distress ratio is
3/2 ∉ [0,1]; the claimed ranges do not hold for every input. -/
theorem C5_counterexample :
    (analyze_psychological_state { intensite := some "15" } "").urgency_score = 15 ∧
    ¬ (analyze_psychological_state { intensite := some "15" } "").urgency_score ≤ 10 ∧
    ¬ (analyze_psychological_state { intensite := some "15" } "").taux_mal_etre ≤ 1 := by
  refine ⟨by decide, by decide, ?_⟩
  have ht : (analyze_psychological_state { intensite := some "15" } "").taux_mal_etre =
      ((intensiteNum { intensite := some "15" } : ℚ)) / 10 := rfl
  have e1 : intensiteNum { intensite := some "15" } = 15 := by decide
  rw [ht, e1]
  norm_num

/-- C5 (amended): whenever the parsed base urgency lies in [0,10] (the
intensity contract), the assessment satisfies the claimed ranges —
urgency ∈ [0,10] (an integer by type), distress ratio ∈ [0,1],
sentiment ∈ [-1,1] — the distress ratio is base/10, urgency never falls below
the base, and the base urgency is the integer parsed from the part of the
intensity field before `/`, defaulting to 5 when the field is missing, empty
or unparseable. -/
theorem C5_assessment_bounds (p : PyParams) (t : String)
    (h0 : 0 ≤ intensiteNum p) (h10 : intensiteNum p ≤ 10) :
    (0 ≤ (analyze_psychological_state p t).urgency_score ∧
      (analyze_psychological_state p t).urgency_score ≤ 10) ∧
    (0 ≤ (analyze_psychological_state p t).taux_mal_etre ∧
      (analyze_psychological_state p t).taux_mal_etre ≤ 1) ∧
    (-1 ≤ (analyze_psychological_state p t).sentiment_score ∧
      (analyze_psychological_state p t).sentiment_score ≤ 1) ∧
    (analyze_psychological_state p t).taux_mal_etre = (intensiteNum p : ℚ) / 10 ∧
    intensiteNum p ≤ (analyze_psychological_state p t).urgency_score ∧
    (p.intensite = none → intensiteNum p = 5) ∧
    (∀ s, p.intensite = some s → s ≠ "" → pyInt (beforeSlash s) = none →
      intensiteNum p = 5) ∧
    (∀ s n, p.intensite = some s → s ≠ "" → pyInt (beforeSlash s) = some n →
      intensiteNum p = n) := by
  have h1 := stepEmotion_mono (p.emotion.getD "") ("Faible", intensiteNum p) h10
  have h2 := stepDuration_mono (pyLower (p.duration.getD ""))
    (sevStepEmotion (p.emotion.getD "") ("Faible", intensiteNum p)) h1.2.2
  have h3 := stepIntensity_mono (intensiteNum p)
    (sevStepDuration (pyLower (p.duration.getD ""))
      (sevStepEmotion (p.emotion.getD "") ("Faible", intensiteNum p))) h2.2.2
  have hurg : (analyze_psychological_state p t).urgency_score =
      (sevStepIntensity (intensiteNum p)
        (sevStepDuration (pyLower (p.duration.getD ""))
          (sevStepEmotion (p.emotion.getD "") ("Faible", intensiteNum p)))).2 := rfl
  have hbase : intensiteNum p ≤ (analyze_psychological_state p t).urgency_score := by
    rw [hurg]; exact le_trans h1.2.1 (le_trans h2.2.1 h3.2.1)
  have htaux : (analyze_psychological_state p t).taux_mal_etre =
      (intensiteNum p : ℚ) / 10 := rfl
  refine ⟨⟨le_trans h0 hbase, by rw [hurg]; exact h3.2.2⟩, ⟨?_, ?_⟩, ?_, htaux, hbase, ?_, ?_, ?_⟩
  · rw [htaux]
    exact div_nonneg (by exact_mod_cast h0) (by norm_num)
  · rw [htaux]
    rw [div_le_one (by norm_num)]
    exact_mod_cast h10
  · have hs := sentiment_bounds t
    have : (analyze_psychological_state p t).sentiment_score =
        if t ≠ "" then analyze_sentiment_simple t else 0 := rfl
    rw [this]
    split
    · exact hs
    · norm_num
  · intro hnone
    simp only [intensiteNum, hnone]
    decide
  · intro s hsome hne hparse
    simp [intensiteNum, hsome, hne, hparse]
  · intro s n hsome hne hparse
    simp [intensiteNum, hsome, hne, hparse]

/-- C5 (witness): intensity `"8/10"` parses to base 8 and the urgency range
holds at this concrete input. -/
theorem C5_witness :
    0 ≤ intensiteNum { emotion := some "stress", intensite := some "8/10" } ∧
    intensiteNum { emotion := some "stress", intensite := some "8/10" } ≤ 10 ∧
    (0 ≤ (analyze_psychological_state { emotion := some "stress", intensite := some "8/10" }
        "je suis triste").urgency_score ∧
      (analyze_psychological_state { emotion := some "stress", intensite := some "8/10" }
        "je suis triste").urgency_score ≤ 10) :=
  ⟨by decide, by decide,
    (C5_assessment_bounds { emotion := some "stress", intensite := some "8/10" }
      "je suis triste" (by decide) (by decide)).1⟩

/-- C6: any booking context carrying `is_emergency=true` yields
`needs_booking=true`; the emergency rule is checked first, ahead of rules
2–7, whatever the severity, urgency and duration. -/
theorem C6_emergency_booking (genSlots : Option (List Slot)) (nowPlus : ℕ → String)
    (ctx : BookingContext) (h : ctx.is_emergency = some true) :
    should_propose_slots ctx = true ∧
    (process_booking_decision genSlots nowPlus ctx).needs_booking = true := by
  have h1 : should_propose_slots ctx = true := by
    unfold should_propose_slots
    simp [h]
  refine ⟨h1, ?_⟩
  unfold process_booking_decision
  simp [h1]

/-- C6 (witness): severity Low (`Faible`), urgency 0, empty duration, yet
`needs_booking=true` because `is_emergency=true`. -/
theorem C6_witness :
    ({ severity_level := some "Faible", urgency_score := some 0, duration := some ""
       symptomes := some "", is_emergency := some true } : BookingContext).is_emergency
        = some true ∧
    (process_booking_decision none (fun _ => "")
      { severity_level := some "Faible", urgency_score := some 0, duration := some ""
        symptomes := some "", is_emergency := some true }).needs_booking = true :=
  ⟨rfl, (C6_emergency_booking none (fun _ => "") _ rfl).2⟩

/-! ## Rebalancer lemmas -/

theorem proposeDeletions_ids (htf total : ℚ) :
    ∀ (evs : List Event) (freed : ℚ) (p : Proposal),
      p ∈ proposeDeletions htf total evs freed → ∃ s, p.event_id = some s ∧ s ≠ "" := by
  intro evs
  induction evs with
  | nil =>
    intro freed p hp
    simp [proposeDeletions] at hp
  | cons e t ih =>
    intro freed p hp
    rw [proposeDeletions] at hp
    split at hp
    · simp at hp
    · split at hp
      · next hid =>
        rcases List.mem_cons.mp hp with hhd | htl
        · subst hhd
          match hide : e.id with
          | none => rw [idTruthy, hide] at hid; simp at hid
          | some s =>
            refine ⟨s, by simp [hide], ?_⟩
            rw [idTruthy, hide] at hid
            simpa using hid
        · exact ih _ p htl
      · exact ih _ p hp

theorem proposeDeletions_sum (htf total : ℚ) :
    ∀ (evs : List Event) (freed : ℚ),
      htf ≤ freed + withIdHours evs →
      htf ≤ freed + propSum (proposeDeletions htf total evs freed) := by
  intro evs
  induction evs with
  | nil =>
    intro freed h
    simpa [proposeDeletions, propSum, withIdHours] using h
  | cons e t ih =>
    intro freed h
    by_cases hb : htf ≤ freed
    · rw [proposeDeletions, if_pos hb]
      simpa [propSum] using hb
    · rw [proposeDeletions, if_neg hb]
      by_cases hid : idTruthy e
      · rw [if_pos hid]
        have hw : withIdHours (e :: t) = dur1 e + withIdHours t := by
          simp [withIdHours, List.filter_cons, hid]
        rw [hw] at h
        have h' : htf ≤ (freed + dur1 e) + withIdHours t := by linarith
        have := ih (freed + dur1 e) h'
        simp only [propSum, List.map_cons, List.sum_cons] at this ⊢
        linarith
      · rw [if_neg hid]
        have hw : withIdHours (e :: t) = withIdHours t := by
          simp [withIdHours, List.filter_cons, hid]
        rw [hw] at h
        exact ih freed h

theorem proposeDeletions_dropLast (htf total : ℚ) :
    ∀ (evs : List Event) (freed : ℚ),
      proposeDeletions htf total evs freed ≠ [] →
      freed + propSum (proposeDeletions htf total evs freed).dropLast < htf := by
  intro evs
  induction evs with
  | nil =>
    intro freed h
    simp [proposeDeletions] at h
  | cons e t ih =>
    intro freed hne
    by_cases hb : htf ≤ freed
    · rw [proposeDeletions, if_pos hb] at hne
      exact absurd rfl hne
    · rw [proposeDeletions, if_neg hb] at hne ⊢
      by_cases hid : idTruthy e
      · rw [if_pos hid] at hne ⊢
        by_cases hM : proposeDeletions htf total t (freed + dur1 e) = []
        · rw [hM]
          simp only [List.dropLast_single, propSum, List.map_nil, List.sum_nil]
          linarith [not_le.mp hb]
        · rw [List.dropLast_cons_of_ne_nil hM]
          have := ih (freed + dur1 e) hM
          simp only [propSum, List.map_cons, List.sum_cons] at this ⊢
          linarith
      · rw [if_neg hid] at hne ⊢
        exact ih freed hne

theorem evLe_total : ∀ a b : Event, evLe a b || evLe b a := by
  intro a b
  simp only [evLe, Bool.or_eq_true, decide_eq_true_eq]
  rcases lt_trichotomy (prio a) (prio b) with h | h | h
  · exact Or.inl (Or.inl h)
  · rcases le_total (dur1 b) (dur1 a) with hd | hd
    · exact Or.inl (Or.inr ⟨h, hd⟩)
    · exact Or.inr (Or.inr ⟨h.symm, hd⟩)
  · exact Or.inr (Or.inl h)

theorem evLe_trans : ∀ a b c : Event, evLe a b → evLe b c → evLe a c := by
  intro a b c hab hbc
  simp only [evLe, decide_eq_true_eq] at hab hbc ⊢
  rcases hab with h1 | ⟨h1, d1⟩ <;> rcases hbc with h2 | ⟨h2, d2⟩
  · exact Or.inl (h1.trans h2)
  · exact Or.inl (h2 ▸ h1)
  · exact Or.inl (h1 ▸ h2)
  · exact Or.inr ⟨h1.trans h2, d2.trans d1⟩

theorem withIdHours_mergeSort (evs : List Event) :
    withIdHours (evs.mergeSort evLe) = withIdHours evs := by
  unfold withIdHours
  exact List.Perm.sum_eq (List.Perm.map _ (List.Perm.filter _ (List.mergeSort_perm evs evLe)))

theorem analyze_overload_eq (write : WritePayload → Bool × String)
    (date : String) (taux : ℚ) (events : List Event)
    (hne : events ≠ []) (hover : (events.map dur0).sum > 8) (hdist : taux > 50) :
    analyze_calendar_load write (some events) date taux =
      handle_overload_case ((events.map dur0).sum) taux events := by
  simp only [analyze_calendar_load, Option.getD_some]
  rw [if_neg hne, if_pos ⟨hover, hdist⟩]

theorem analyze_wellbeing_eq (write : WritePayload → Bool × String)
    (date : String) (taux : ℚ) (events : List Event)
    (hne : events ≠ []) (hload : ¬ (events.map dur0).sum > 8) (hdist : taux < 30) :
    analyze_calendar_load write (some events) date taux =
      handle_wellbeing_case write date ((events.map dur0).sum) taux events := by
  simp only [analyze_calendar_load, Option.getD_some]
  rw [if_neg hne, if_neg (by tauto), if_pos ⟨hload, hdist⟩]

/-! ## Claims C7, C8 -/

/-- C7: with a non-empty agenda, total above the 8-hour threshold and distress
above 50, the rebalancer sorts by priority ascending then duration descending
and greedily proposes deletions, skipping id-less events: whenever the events
carrying an id sum to at least the hours to free, the proposals sum to at
least that amount with the minimal greedy count (dropping the last proposal
falls short), every proposal carries a non-null id, no write call is made,
and `awaiting_confirmation` holds exactly when a proposal exists. -/
theorem C7_overload_greedy
    (write : WritePayload → Bool × String) (date : String) (taux : ℚ)
    (events : List Event)
    (hne : events ≠ [])
    (hover : (events.map dur0).sum > 8)
    (hdist : taux > 50)
    (hsum : (events.map dur0).sum - 8 ≤ withIdHours events) :
    propSum (analyze_calendar_load write (some events) date taux).proposed_changes ≥
      (events.map dur0).sum - 8 ∧
    (analyze_calendar_load write (some events) date taux).proposed_changes ≠ [] ∧
    propSum (analyze_calendar_load write (some events) date taux).proposed_changes.dropLast <
      (events.map dur0).sum - 8 ∧
    (∀ p ∈ (analyze_calendar_load write (some events) date taux).proposed_changes,
      ∃ s, p.event_id = some s ∧ s ≠ "") ∧
    (analyze_calendar_load write (some events) date taux).writes = [] ∧
    ((analyze_calendar_load write (some events) date taux).awaiting_confirmation = true ↔
      (analyze_calendar_load write (some events) date taux).proposed_changes ≠ []) ∧
    List.Pairwise (fun a b => evLe a b) (events.mergeSort evLe) := by
  rw [analyze_overload_eq write date taux events hne hover hdist]
  have hprop : (handle_overload_case ((events.map dur0).sum) taux events).proposed_changes =
      proposeDeletions ((events.map dur0).sum - 8) ((events.map dur0).sum)
        (events.mergeSort evLe) 0 := rfl
  have hsum' : (events.map dur0).sum - 8 ≤ 0 + withIdHours (events.mergeSort evLe) := by
    rw [withIdHours_mergeSort]
    linarith
  have hge := proposeDeletions_sum ((events.map dur0).sum - 8) ((events.map dur0).sum)
    (events.mergeSort evLe) 0 hsum'
  rw [zero_add] at hge
  have hnonempty : proposeDeletions ((events.map dur0).sum - 8) ((events.map dur0).sum)
      (events.mergeSort evLe) 0 ≠ [] := by
    intro hnil
    rw [hnil] at hge
    simp only [propSum, List.map_nil, List.sum_nil] at hge
    linarith
  have hlast := proposeDeletions_dropLast ((events.map dur0).sum - 8) ((events.map dur0).sum)
    (events.mergeSort evLe) 0 hnonempty
  rw [zero_add] at hlast
  refine ⟨by rw [hprop]; exact hge, by rw [hprop]; exact hnonempty,
    by rw [hprop]; exact hlast, ?_, rfl, ?_, ?_⟩
  · intro p hp
    rw [hprop] at hp
    exact proposeDeletions_ids _ _ _ _ p hp
  · have hawait : (handle_overload_case ((events.map dur0).sum) taux events).awaiting_confirmation
        = decide ((proposeDeletions ((events.map dur0).sum - 8) ((events.map dur0).sum)
            (events.mergeSort evLe) 0).length > 0) := rfl
    rw [hprop, hawait]
    simp [List.length_pos]
  · exact List.sorted_mergeSort evLe_trans evLe_total events

/-- C7 (witness): two removable events (3h at priority 1, 7h at priority 2),
total 10h > 8, distress 60: the greedy deletions free at least 2h. -/
theorem C7_witness :
    propSum (analyze_calendar_load (fun _ => (true, "ok")) (some [cEventA, cEventB])
      "2025-10-30" 60).proposed_changes ≥ (([cEventA, cEventB].map dur0).sum - 8) ∧
    (analyze_calendar_load (fun _ => (true, "ok")) (some [cEventA, cEventB])
      "2025-10-30" 60).writes = [] :=
  have h := C7_overload_greedy (fun _ => (true, "ok")) "2025-10-30" 60 [cEventA, cEventB]
    (by simp)
    (by norm_num [cEventA, cEventB, dur0])
    (by norm_num)
    (by simp [withIdHours, cEventA, cEventB, dur0, dur1, idTruthy])
  ⟨h.1, h.2.2.2.2.1⟩

/-- C8: with a non-empty agenda at or below the 8-hour threshold and distress
below 30, the rebalancer attempts exactly one ADD (the fixed 1-hour wellbeing
break) through the write endpoint, proposes zero deletions, and on write
failure returns the explanatory message with no retry (the write trace still
has length one). -/
theorem C8_wellbeing_add
    (write : WritePayload → Bool × String) (date : String) (taux : ℚ)
    (events : List Event)
    (hne : events ≠ [])
    (hload : ¬ (events.map dur0).sum > 8)
    (hdist : taux < 30) :
    (analyze_calendar_load write (some events) date taux).writes =
      [wellbeingPayload date ((events.map dur0).sum) taux] ∧
    (wellbeingPayload date ((events.map dur0).sum) taux).action = "add" ∧
    (wellbeingPayload date ((events.map dur0).sum) taux).title =
      "Pause Bien-être Recommandée" ∧
    (wellbeingPayload date ((events.map dur0).sum) taux).duration_hours = 1 ∧
    (analyze_calendar_load write (some events) date taux).proposed_changes = [] ∧
    ((write (wellbeingPayload date ((events.map dur0).sum) taux)).1 = true →
      (analyze_calendar_load write (some events) date taux).actions_effectuees =
        [{ action := "ADD", event_title := "Pause Bien-être Recommandée", duration := 1
           reason := "Charge faible (" ++ toString ((events.map dur0).sum) ++
             "h) + Bien-être élevé (" ++ toString taux ++ "%)" }]) ∧
    ((write (wellbeingPayload date ((events.map dur0).sum) taux)).1 = false →
      (analyze_calendar_load write (some events) date taux).actions_effectuees = [] ∧
      (analyze_calendar_load write (some events) date taux).calendar_message =
        "⚠️ Impossible d\x27ajouter la pause : " ++
          (write (wellbeingPayload date ((events.map dur0).sum) taux)).2) := by
  rw [analyze_wellbeing_eq write date taux events hne hload hdist]
  refine ⟨rfl, rfl, rfl, rfl, rfl, ?_, ?_⟩
  · intro hw
    simp only [handle_wellbeing_case, hw]
    rfl
  · intro hw
    constructor
    · simp only [handle_wellbeing_case, hw]
      rfl
    · simp only [handle_wellbeing_case, hw]
      rfl

/-- C8 (witness): one 5-hour event, distress 20, a failing write endpoint:
exactly one attempted ADD, zero DELETE proposals, explanatory message. -/
theorem C8_witness :
    (analyze_calendar_load (fun _ => (false, "HTTP 500")) (some [cEventC])
      "2025-10-30" 20).writes =
      [wellbeingPayload "2025-10-30" (([cEventC].map dur0).sum) 20] ∧
    (analyze_calendar_load (fun _ => (false, "HTTP 500")) (some [cEventC])
      "2025-10-30" 20).proposed_changes = [] ∧
    (analyze_calendar_load (fun _ => (false, "HTTP 500")) (some [cEventC])
      "2025-10-30" 20).actions_effectuees = [] :=
  have h := C8_wellbeing_add (fun _ => (false, "HTTP 500")) "2025-10-30" 20 [cEventC]
    (by simp)
    (by norm_num [cEventC, dur0])
    (by norm_num)
  ⟨h.1, h.2.2.2.2.1, (h.2.2.2.2.2.2 rfl).1⟩

/-! ## Orchestrator lemmas -/

theorem containsSub_nil_needle : ∀ hay : List Char, containsSub hay [] = true := by
  intro hay
  cases hay <;> simp [containsSub, List.isPrefixOf]

theorem isPrefixOf_append_right (b : List Char) :
    ∀ (n a : List Char), n.isPrefixOf a = true → n.isPrefixOf (a ++ b) = true := by
  intro n
  induction n with
  | nil =>
    intro a _
    simp [List.isPrefixOf]
  | cons c t ih =>
    intro a h
    cases a with
    | nil => simp [List.isPrefixOf] at h
    | cons a' t' =>
      simp only [List.isPrefixOf, Bool.and_eq_true] at h
      simp only [List.cons_append, List.isPrefixOf, Bool.and_eq_true]
      exact ⟨h.1, ih t' h.2⟩

theorem containsSub_append (n b : List Char) :
    ∀ a : List Char, containsSub a n = true → containsSub (a ++ b) n = true := by
  intro a
  induction a with
  | nil =>
    intro h
    have hn : n = [] := by simpa [containsSub] using h
    subst hn
    exact containsSub_nil_needle b
  | cons c t ih =>
    intro h
    rw [containsSub] at h
    rw [List.cons_append, containsSub]
    rcases Bool.or_eq_true_iff.mp h with hp | hc
    · exact Bool.or_eq_true_iff.mpr (Or.inl (by
        have := isPrefixOf_append_right b n (c :: t) hp
        simpa using this))
    · exact Bool.or_eq_true_iff.mpr (Or.inr (ih hc))

theorem strContains_append_left (a b n : String) (h : strContains a n = true) :
    strContains (a ++ b) n = true := by
  unfold strContains at h ⊢
  rw [show (a ++ b).data = a.data ++ b.data from String.data_append a b]
  exact containsSub_append n.data b.data a.data h

theorem collect_collected (env : Env) (t : String) (p : PyParams) :
    (collect_parameters env t p).collected_params = mergeParams p (env.extract t) := by
  rw [collect_parameters]
  split <;> rfl

theorem detect_type_of_fired (msg : String)
    (h : (detect_emergency msg).is_emergency = true) :
    (detect_emergency msg).type = some "self_harm" := by
  simp only [detect_emergency] at h ⊢
  split at h
  · next hcond => rw [if_pos hcond]
  · simp at h

theorem paramLe_refl (a : Option String) : paramLe a a := fun _ => rfl

theorem paramLe_trans {a b c : Option String} (h1 : paramLe a b) (h2 : paramLe b c) :
    paramLe a c := by
  intro ht
  have hb := h1 ht
  have htb : truthy b = true := by rw [hb]; exact ht
  rw [h2 htb, hb]

theorem mergeField_le (o n : Option String) : paramLe o (mergeField o n) := by
  intro ht
  unfold mergeField
  rw [if_neg]
  simp [ht]

theorem paramsLe_refl (p : PyParams) : paramsLe p p :=
  ⟨paramLe_refl _, paramLe_refl _, paramLe_refl _, paramLe_refl _, paramLe_refl _⟩

theorem paramsLe_trans {p q r : PyParams} (h1 : paramsLe p q) (h2 : paramsLe q r) :
    paramsLe p r :=
  ⟨paramLe_trans h1.1 h2.1, paramLe_trans h1.2.1 h2.2.1, paramLe_trans h1.2.2.1 h2.2.2.1,
   paramLe_trans h1.2.2.2.1 h2.2.2.2.1, paramLe_trans h1.2.2.2.2 h2.2.2.2.2⟩

theorem mergeParams_le (p q : PyParams) : paramsLe p (mergeParams p q) :=
  ⟨mergeField_le _ _, mergeField_le _ _, mergeField_le _ _, mergeField_le _ _,
   mergeField_le _ _⟩

theorem sessionPres_refl (s : Session) : sessionPres s s := ⟨fun h => h, paramsLe_refl _⟩

theorem sessionPres_trans {s t u : Session} (h1 : sessionPres s t) (h2 : sessionPres t u) :
    sessionPres s u :=
  ⟨fun h => h2.1 (h1.1 h), paramsLe_trans h1.2 h2.2⟩

theorem handleState_pres (env : Env) (msg : String) (s : Session) :
    sessionPres s (handleState env msg s) := by
  unfold handleState
  split
  · -- ROUTING
    unfold handle_routing
    split
    · exact ⟨fun h => h, paramsLe_refl _⟩
    · split
      · exact ⟨fun h => h, paramsLe_refl _⟩
      · split
        · exact ⟨fun h => h, paramsLe_refl _⟩
        · exact ⟨fun h => h, paramsLe_refl _⟩
  · -- HANDLING_EMERGENCY
    refine ⟨fun _ => rfl, ?_⟩
    show paramsLe s.collected_params
      (collect_parameters env msg s.collected_params).collected_params
    rw [collect_collected]
    exact mergeParams_le _ _
  · -- COLLECTING_PARAMS
    simp only [handle_collecting_params]
    split
    · refine ⟨fun h => h, ?_⟩
      show paramsLe s.collected_params
        (collect_parameters env msg s.collected_params).collected_params
      rw [collect_collected]
      exact mergeParams_le _ _
    · refine ⟨fun h => h, ?_⟩
      show paramsLe s.collected_params
        (collect_parameters env msg s.collected_params).collected_params
      rw [collect_collected]
      exact mergeParams_le _ _
  · -- WAITING_USER_CONFIRMATION
    simp only [handle_waiting_confirmation]
    split
    · exact ⟨fun h => h, paramsLe_refl _⟩
    · split
      · exact ⟨fun h => h, paramsLe_refl _⟩
      · exact ⟨fun h => h, paramsLe_refl _⟩
  · -- ANALYZING_AND_RESPONDING
    exact ⟨fun h => h, paramsLe_refl _⟩
  · -- FINAL_RESPONSE_READY
    exact sessionPres_refl s

theorem stepLoop_pres (env : Env) (msg : String) :
    ∀ (n : ℕ) (s : Session), sessionPres s (stepLoop env msg n s) := by
  intro n
  induction n with
  | zero => intro s; exact sessionPres_refl s
  | succ n ih =>
    intro s
    rw [stepLoop]
    split
    · exact sessionPres_refl s
    · exact sessionPres_trans (handleState_pres env msg s) (ih _)

theorem process_message_pres (env : Env) (sid msg : String) (s : Session) :
    sessionPres s (process_message env (some s) sid msg).2 := by
  have h0 : sessionPres s (get_or_create_session (some s) sid) := by
    simp only [get_or_create_session, Option.getD_some]
    split
    · exact ⟨fun h => h, paramsLe_refl _⟩
    · exact ⟨fun h => h, paramsLe_refl _⟩
  have h1 : sessionPres (get_or_create_session (some s) sid)
      (applyNextState (get_or_create_session (some s) sid)) := by
    unfold applyNextState
    split
    · exact ⟨fun h => h, paramsLe_refl _⟩
    · exact sessionPres_refl _
  exact sessionPres_trans h0 (sessionPres_trans h1 (stepLoop_pres env msg 6 _))

/-! ## Claims C1, C2, C3, C9, C10 -/

/-- C1 (counterexample): the claim fails for sessions holding a pending entry
state. After a first turn that completes intake (scheduling
WAITING_USER_CONFIRMATION), the crisis utterance "je veux me suicider" —
which the detector recognises — is handled by the confirmation handler, not
the emergency path: the response carries `is_emergency=false` and only the
ConversationAgent ran. -/
theorem C1_counterexample :
    (detect_emergency "je veux me suicider").is_emergency = true ∧
    demoTurn1.2.next_state = some .WAITING_USER_CONFIRMATION ∧
    (process_message cEnv (some demoTurn1.2) "s1" "je veux me suicider").1.is_emergency
      = false ∧
    (process_message cEnv (some demoTurn1.2) "s1" "je veux me suicider").1.agents_used
      = ["ConversationAgent"] := by
  refine ⟨by decide, by decide, by decide, by decide⟩

/-- C1 (amended): the emergency override holds for every turn that enters the
ROUTING state — a fresh session, or a stored session with no pending entry
state and the emergency flag unset. For any such turn whose utterance contains
a listed critical phrase, the response has `is_emergency=true`, is produced by
the emergency path (EmergencyAgent then CollectionAgent), and carries the
self-harm protocol. -/
theorem C1_emergency_override (env : Env) (sid msg : String) (sess : Option Session)
    (hroute : ∀ t, sess = some t → t.next_state = none ∧ t.is_emergency = false)
    (hcrit : (detect_emergency msg).is_emergency = true) :
    (process_message env sess sid msg).1.is_emergency = true ∧
    (process_message env sess sid msg).1.agents_used = ["EmergencyAgent", "CollectionAgent"] ∧
    (process_message env sess sid msg).1.protocol =
      some (get_emergency_protocol (some "self_harm")) := by
  have hty := detect_type_of_fired msg hcrit
  have hbody : ∀ t : Session, t.next_state = none → t.is_emergency = false →
      (process_message env (some t) sid msg).1.is_emergency = true ∧
      (process_message env (some t) sid msg).1.agents_used =
        ["EmergencyAgent", "CollectionAgent"] ∧
      (process_message env (some t) sid msg).1.protocol =
        some (get_emergency_protocol (some "self_harm")) := by
    intro t hnext hie
    simp only [process_message, get_or_create_session, applyNextState, Option.getD_some,
      hie, Bool.false_eq_true, if_false, hnext, stepLoop, handleState, handle_routing,
      hcrit, if_true, handle_emergency, handle_crisis, hty, Bool.not_true,
      reduceCtorEq, ite_false, ite_true]
    simp [hcrit]
  rcases sess with _ | t
  · -- fresh session
    simp only [process_message, get_or_create_session, Option.getD_none, applyNextState,
      freshSession, stepLoop, handleState, handle_routing, hcrit, if_true,
      handle_emergency, handle_crisis, hty, Bool.not_true, reduceCtorEq,
      ite_false, ite_true]
    simp [hcrit]
  · exact hbody t (hroute t rfl).1 (hroute t rfl).2

/-- C1 (witness): the crisis utterance on a fresh session goes through the
emergency path. -/
theorem C1_witness :
    (process_message cEnv none "s9" "je veux me suicider").1.is_emergency = true ∧
    (process_message cEnv none "s9" "je veux me suicider").1.agents_used =
      ["EmergencyAgent", "CollectionAgent"] ∧
    (process_message cEnv none "s9" "je veux me suicider").1.protocol =
      some (get_emergency_protocol (some "self_harm")) :=
  C1_emergency_override cEnv "s9" "je veux me suicider" none
    (fun t h => nomatch h) (by decide)

/-- C2: across any sequence of turns on one session, the `is_emergency` flag
is sticky (once true it stays true until the session record is destroyed by
reset), and every collected field, once holding a truthy value, keeps exactly
that value — first write wins, never erased. -/
theorem C2_session_invariants (sid : String) (turns : List (Env × String)) (s : Session) :
    (s.is_emergency = true → (runTurns sid turns s).is_emergency = true) ∧
    paramsLe s.collected_params (runTurns sid turns s).collected_params := by
  induction turns generalizing s with
  | nil => exact sessionPres_refl s
  | cons em tl ih =>
    have hstep : runTurns sid (em :: tl) s =
        runTurns sid tl (process_message em.1 (some s) sid em.2).2 := by
      simp [runTurns]
    rw [hstep]
    exact sessionPres_trans (process_message_pres em.1 sid em.2 s)
      (ih (process_message em.1 (some s) sid em.2).2)

/-- C2 (witness): a turn on an emergency-flagged session with a collected
emotion keeps both. -/
theorem C2_witness :
    (runTurns "w" [(cEnv, "bonjour")] wSession).is_emergency = true ∧
    (runTurns "w" [(cEnv, "bonjour")] wSession).collected_params.emotion =
      wSession.collected_params.emotion :=
  ⟨(C2_session_invariants "w" [(cEnv, "bonjour")] wSession).1 rfl,
   (C2_session_invariants "w" [(cEnv, "bonjour")] wSession).2.1 (by decide)⟩

/-- C3: whenever a turn enters WAITING_USER_CONFIRMATION (pending entry state)
and the lowercased, whitespace-stripped message is one of the negative tokens
— including tokens longer than 10 characters, since the negative check comes
first — the session is confirmed and the same turn runs the full analysis
pipeline, whose response (is_emergency=false) is returned. -/
theorem C3_negative_token_confirms (env : Env) (sid msg : String) (s : Session)
    (hpend : s.next_state = some .WAITING_USER_CONFIRMATION)
    (hneg : pyStrip (pyLower msg) ∈ negativeTokens) :
    (process_message env (some s) sid msg).2.user_confirmed = true ∧
    (process_message env (some s) sid msg).1.agents_used =
      ["AnalysisAgent", "CalendarAgent", "BookingAgent", "RecommendationAgent",
        "ConversationAgent"] ∧
    (process_message env (some s) sid msg).1.is_emergency = false := by
  cases hie : s.is_emergency <;>
  · simp only [process_message, get_or_create_session, applyNextState, Option.getD_some,
      hie, Bool.false_eq_true, Bool.true_eq_false, if_false, if_true, hpend, stepLoop,
      handleState, handle_waiting_confirmation, eq_true hneg, ite_true,
      handle_analysis_and_response, reduceCtorEq, ite_false]
    simp

/-- C3 (witness): the 14-character negative token "Rien à ajouter" confirms
and advances to analysis in one turn. -/
theorem C3_witness :
    (process_message cEnv (some demoTurn1.2) "s1" "Rien à ajouter").2.user_confirmed = true ∧
    (process_message cEnv (some demoTurn1.2) "s1" "Rien à ajouter").1.agents_used =
      ["AnalysisAgent", "CalendarAgent", "BookingAgent", "RecommendationAgent",
        "ConversationAgent"] ∧
    (process_message cEnv (some demoTurn1.2) "s1" "Rien à ajouter").1.is_emergency = false :=
  C3_negative_token_confirms cEnv "s1" "Rien à ajouter" demoTurn1.2 (by decide) (by decide)

/-- C9: every crisis turn succeeds — the emergency handler catches
empathetic-generation failures and substitutes the fixed fallback naming the
3114 hotline — and on a fresh session any utterance containing a critical
phrase (in particular "je veux me suicider") yields `is_emergency=true` with
protocol hotline "3114". -/
theorem C9_crisis_turn_never_fails (env : Env) (sid msg : String)
    (hcrit : (detect_emergency msg).is_emergency = true) :
    (process_message env none sid msg).1.success = true ∧
    (process_message env none sid msg).1.is_emergency = true ∧
    ((process_message env none sid msg).1.protocol.map Protocol.hotline) = some "3114" ∧
    (env.genEmpathetic msg = none →
      strContains (process_message env none sid msg).1.response "3114" = true) := by
  have hty := detect_type_of_fired msg hcrit
  refine ⟨?_, ?_, ?_, ?_⟩
  · simp only [process_message, get_or_create_session, Option.getD_none, applyNextState,
      freshSession, stepLoop, handleState, handle_routing, hcrit, if_true,
      handle_emergency, handle_crisis, hty, Bool.not_true, reduceCtorEq, ite_false,
      ite_true, Option.getD_some]
  · simp only [process_message, get_or_create_session, Option.getD_none, applyNextState,
      freshSession, stepLoop, handleState, handle_routing, hcrit, if_true,
      handle_emergency, handle_crisis, hty, Bool.not_true, reduceCtorEq, ite_false,
      ite_true, Option.getD_some]
  · simp only [process_message, get_or_create_session, Option.getD_none, applyNextState,
      freshSession, stepLoop, handleState, handle_routing, hcrit, if_true,
      handle_emergency, handle_crisis, hty, Bool.not_true, reduceCtorEq, ite_false,
      ite_true, Option.getD_some]
    simp [hcrit, get_emergency_protocol]
  · intro hgen
    simp only [process_message, get_or_create_session, Option.getD_none, applyNextState,
      freshSession, stepLoop, handleState, handle_routing, hcrit, if_true,
      handle_emergency, handle_crisis, hty, Bool.not_true, reduceCtorEq, ite_false,
      ite_true, Option.getD_some, hgen]
    split
    · exact strContains_append_left _ _ _
        (strContains_append_left _ _ _ (by decide))
    · decide

/-- C9 (witness): "je veux me suicider" on a fresh session with a failing
generation service: success, emergency, hotline 3114, fallback text naming
3114. -/
theorem C9_witness :
    (process_message cEnv none "s2" "je veux me suicider").1.success = true ∧
    (process_message cEnv none "s2" "je veux me suicider").1.is_emergency = true ∧
    ((process_message cEnv none "s2" "je veux me suicider").1.protocol.map Protocol.hotline)
      = some "3114" ∧
    strContains (process_message cEnv none "s2" "je veux me suicider").1.response "3114"
      = true :=
  have h := C9_crisis_turn_never_fails cEnv "s2" "je veux me suicider" (by decide)
  ⟨h.1, h.2.1, h.2.2.1, h.2.2.2 rfl⟩

/-- C10 (counterexample): after an emergency turn that completed intake, the
reply "oui" at confirmation produces the reopen-intake response — neither the
emergency-turn response (different agents) nor the confirmation prompt (no
`awaiting_confirmation` key) — yet it carries `is_emergency=true`: responses
other than the two kinds named by the claim also reflect the session flag. -/
theorem C10_counterexample :
    (process_message cEnv (some crisisTurn1.2) "s2" "oui").1.is_emergency = true ∧
    (process_message cEnv (some crisisTurn1.2) "s2" "oui").1.awaiting_more_info
      = some true ∧
    (process_message cEnv (some crisisTurn1.2) "s2" "oui").1.awaiting_confirmation
      = none ∧
    (process_message cEnv (some crisisTurn1.2) "s2" "oui").1.agents_used
      = ["ConversationAgent"] := by
  refine ⟨by decide, by decide, by decide, by decide⟩

/-- C10 (amended): the analysis response and the intake-question response
always carry `is_emergency=false`; the emergency-turn response always carries
`true`; and both the completed-intake confirmation prompt and the
reopen-intake response of the confirmation handler reflect the session's
sticky flag. -/
theorem C10_response_flags (env : Env) (s : Session) (msg : String) :
    (∀ r, (handle_analysis_and_response env s msg).final_response = some r →
      r.is_emergency = false) ∧
    ((collect_parameters env msg s.collected_params).is_complete = false →
      ∀ r, (handle_collecting_params env s msg).final_response = some r →
        r.is_emergency = false) ∧
    ((collect_parameters env msg s.collected_params).is_complete = true →
      ∀ r, (handle_collecting_params env s msg).final_response = some r →
        r.is_emergency = s.is_emergency) ∧
    (∀ r, (handle_emergency env s msg).final_response = some r →
      r.is_emergency = true) ∧
    (pyStrip (pyLower msg) ∉ negativeTokens →
      (pyStrip (pyLower msg) ∈ positiveTokens ∨ msg.length > 10) →
      ∀ r, (handle_waiting_confirmation s msg).final_response = some r →
        r.is_emergency = s.is_emergency) := by
  refine ⟨?_, ?_, ?_, ?_, ?_⟩
  · intro r hr
    simp only [handle_analysis_and_response, Option.some.injEq] at hr
    rw [← hr]
  · intro hinc r hr
    simp only [handle_collecting_params, hinc, Bool.false_eq_true, if_false,
      Option.some.injEq] at hr
    rw [← hr]
  · intro hcomp r hr
    simp only [handle_collecting_params, hcomp, if_true, Option.some.injEq] at hr
    rw [← hr]
  · intro r hr
    simp only [handle_emergency, Option.some.injEq] at hr
    rw [← hr]
  · intro hnneg hpos r hr
    simp only [handle_waiting_confirmation, eq_false hnneg, ite_false,
      eq_true hpos, ite_true, Option.some.injEq] at hr
    rw [← hr]

/-- C10 (witness): the reopen-intake response after the crisis scenario
reflects the (true) session flag. -/
theorem C10_witness :
    ∃ r, (handle_waiting_confirmation crisisTurn1.2 "oui").final_response = some r ∧
      r.is_emergency = crisisTurn1.2.is_emergency :=
  ⟨_, rfl, (C10_response_flags cEnv crisisTurn1.2 "oui").2.2.2.2
    (by decide) (by decide) _ rfl⟩

end Zenflow
